import Mathlib

/-!
Verification of the prediction-request pipeline of the KU Cancer Prediction
demo service: feature validation (`app.validate_prediction_data` and the
`/api/predict` handler), feature augmentation (`data_loader._augment`),
the XGBoost wrapper guards (`model.XGBoostModel`), and the rule-based
risk annotator (`llm_diagnosis.LLMDiagnosisAnalyzer`).

Python floats are embedded as rationals, Python dicts as insertion-ordered
association lists, raised exceptions as `Except.error`, and JSON values as
the inductive `PyVal`.
-/

namespace CancerDemo

/-- A Python/JSON value, as produced by `request.get_json()`: `None`, a
number, a string, a list, or a string-keyed dict (insertion-ordered). -/
inductive PyVal where
  | null
  | num (q : ℚ)
  | str (s : String)
  | list (xs : List PyVal)
  | dict (kvs : List (String × PyVal))

/-- Python `d.get(k, default)` on a `Dict[str, float]`. -/
def dictGet (kvs : List (String × ℚ)) (k : String) (d : ℚ) : ℚ :=
  (kvs.lookup k).getD d

/-- The `feature_names` medical-context mapping built in
`LLMDiagnosisAnalyzer.generate_diagnosis_report` (llm_diagnosis.py lines 40-51). -/
def feature_names : List (String × String) :=
  [("feature_0", "Patient Age"),
   ("feature_1", "Tumor Size (mm)"),
   ("feature_2", "Cancer Stage"),
   ("feature_3", "Genetic Risk Score"),
   ("feature_4", "White Blood Cell Count"),
   ("feature_5", "Hemoglobin Level"),
   ("feature_6", "Platelet Count"),
   ("feature_7", "PSA Level (ng/mL)"),
   ("feature_8", "Glucose Level (mg/dL)"),
   ("feature_9", "BMI")]

/-- The ten canonical feature codes. -/
def canonical_feature_codes : List String := feature_names.map Prod.fst

/-- Result of `LLMDiagnosisAnalyzer._assess_risk_level`: the strings
"high", "moderate", "low" of the source. -/
inductive RiskLevel where
  | high
  | moderate
  | low
deriving DecidableEq, Repr

/-- The `risk_thresholds` table of `_assess_risk_level`
(llm_diagnosis.py lines 250-261): per feature code the pair
(high threshold, moderate threshold). -/
def risk_thresholds : List (String × (ℚ × ℚ)) :=
  [("feature_0", (70, 50)),
   ("feature_1", (30, 20)),
   ("feature_2", (3, 2)),
   ("feature_3", (8/10, 5/10)),
   ("feature_4", (15, 11)),
   ("feature_5", (10, 12)),
   ("feature_6", (100, 150)),
   ("feature_7", (10, 4)),
   ("feature_8", (200, 126)),
   ("feature_9", (35, 30))]

/-- `LLMDiagnosisAnalyzer._assess_risk_level` (llm_diagnosis.py lines 247-281):
unknown codes default to moderate; hemoglobin (feature_5) and platelets
(feature_6) compare inverted (value below threshold raises risk); the other
codes compare with strict greater-than. -/
def assess_risk_level (feature_code : String) (value : ℚ) : RiskLevel :=
  match risk_thresholds.lookup feature_code with
  | Option.none => RiskLevel.moderate
  | Option.some thresholds =>
    if feature_code = "feature_5" ∨ feature_code = "feature_6" then
      if value < thresholds.1 then RiskLevel.high
      else if value < thresholds.2 then RiskLevel.moderate
      else RiskLevel.low
    else
      if value > thresholds.1 then RiskLevel.high
      else if value > thresholds.2 then RiskLevel.moderate
      else RiskLevel.low

/-- The `interpretations` dict-of-lambdas of
`LLMDiagnosisAnalyzer._interpret_feature_value` (llm_diagnosis.py lines 114-125). -/
def interpretations : List (String × (ℚ → String)) :=
  [("feature_0", fun v => if v > 50 then "High risk age group" else "Lower risk age group"),
   ("feature_1", fun v => if v > 20 then "Large tumor size - high concern" else "Smaller tumor size"),
   ("feature_2", fun v => if v > 2 then "Advanced stage" else "Early stage"),
   ("feature_3", fun v => if v > 5/10 then "High genetic risk" else "Lower genetic risk"),
   ("feature_4", fun v => if v > 11 then "Elevated WBC - possible infection/inflammation" else "Normal WBC"),
   ("feature_5", fun v => if v < 12 then "Low hemoglobin - anemia risk" else "Normal hemoglobin"),
   ("feature_6", fun v => if v < 150 then "Low platelets - bleeding risk" else "Normal platelet count"),
   ("feature_7", fun v => if v > 4 then "Elevated PSA - high concern" else "Normal PSA level"),
   ("feature_8", fun v => if v > 126 then "High glucose - diabetes risk" else "Normal glucose"),
   ("feature_9", fun v => if v > 30 then "High BMI - obesity risk" else "Normal BMI")]

/-- `LLMDiagnosisAnalyzer._interpret_feature_value` (llm_diagnosis.py lines 112-129). -/
def interpret_feature_value (feature_code : String) (value : ℚ) : String :=
  match interpretations.lookup feature_code with
  | Option.some f => f value
  | Option.none => "Value within range"

/-- One entry of the list built by `_build_feature_summary`. -/
structure SummaryEntry where
  feature : String
  code : String
  value : ℚ
  interpretation : String
deriving Repr

/-- `LLMDiagnosisAnalyzer._build_feature_summary` (llm_diagnosis.py lines 98-110):
iterates the features dict in order, keeping keys present in `feature_names`. -/
def build_feature_summary (features : List (String × ℚ))
    (names : List (String × String)) : List SummaryEntry :=
  features.filterMap (fun kv =>
    match names.lookup kv.1 with
    | Option.some nm =>
        Option.some ⟨nm, kv.1, kv.2, interpret_feature_value kv.1 kv.2⟩
    | Option.none => Option.none)

/-- Python `sorted(pairs, key=lambda x: x[1], reverse=True)`: a stable sort
by descending score, embedded as insertion sort under the total relation
"first score is at least the second" (stable sorts agree extensionally). -/
def ge2 (a b : String × ℚ) : Prop := b.2 ≤ a.2

instance : DecidableRel ge2 := fun a b => inferInstanceAs (Decidable (b.2 ≤ a.2))

instance : IsTotal (String × ℚ) ge2 := ⟨fun a b => le_total b.2 a.2⟩

instance : IsTrans (String × ℚ) ge2 := ⟨fun _ _ _ h1 h2 => le_trans h2 h1⟩

/-- Descending stable sort of (key, score) pairs by score. -/
def sortDesc (l : List (String × ℚ)) : List (String × ℚ) :=
  l.insertionSort ge2

/-- `LLMDiagnosisAnalyzer._generate_recommendations` (llm_diagnosis.py
lines 165-201): base strings chosen by prediction, then four conditional
appends checked in fixed order. The `feature_names` argument is received
and unused, as in the source. -/
def generate_recommendations (prediction : ℤ) (confidence : ℚ)
    (features : List (String × ℚ)) (fn : List (String × String)) : List String :=
  let _ := fn
  let recommendations : List String := []
  let recommendations := recommendations ++
    (if prediction = 1 then
      ["游댮 HIGH PRIORITY: Schedule urgent consultation with oncologist",
       "游댮 Recommend comprehensive cancer screening tests",
       "游댮 Consider advanced imaging (CT/MRI) based on tumor type",
       "游댮 Discuss treatment options with medical team",
       "游댮 Genetic counseling if genetic risk factors present"]
    else
      ["游릭 Continue routine cancer screening schedule",
       "游릭 Maintain healthy lifestyle and risk factor management",
       "游릭 Annual check-ups recommended",
       "游릭 Monitor any changes in health status"])
  let recommendations := if dictGet features "feature_0" 0 > 60 then
      recommendations ++ ["丘멆잺 Age-related monitoring: Increase screening frequency"]
    else recommendations
  let recommendations := if dictGet features "feature_3" 0 > 7/10 then
      recommendations ++ ["丘멆잺 Genetic risk: Consider genetic testing and family counseling"]
    else recommendations
  let recommendations := if dictGet features "feature_4" 0 > 11 then
      recommendations ++ ["丘멆잺 Elevated WBC: Investigate for infection or other conditions"]
    else recommendations
  let recommendations := if confidence < 6/10 then
      recommendations ++ ["丘멆잺 LOW CONFIDENCE: Additional testing recommended for confirmation"]
    else recommendations
  recommendations

/-- One bucket entry appended by `_analyze_risk_factors`. -/
structure RiskEntry where
  factor : String
  value : ℚ
  importance : ℚ
  urgency : String
deriving DecidableEq, Repr

/-- The `risk_factors` dict of `_analyze_risk_factors`. -/
structure RiskFactors where
  high_risk : List RiskEntry
  moderate_risk : List RiskEntry
  low_risk : List RiskEntry
deriving DecidableEq, Repr

/-- Loop body of `_analyze_risk_factors` (llm_diagnosis.py lines 217-243):
look the code up in features with default 0, assess it, and append to the
bucket of its tier with the tier-matching urgency tag. -/
def classify_risk_factor (features : List (String × ℚ))
    (names : List (String × String)) (acc : RiskFactors)
    (p : String × ℚ) : RiskFactors :=
  let value := dictGet features p.1 0
  let feature_name := (names.lookup p.1).getD p.1
  match assess_risk_level p.1 value with
  | RiskLevel.high =>
      { acc with high_risk := acc.high_risk ++ [⟨feature_name, value, p.2, "URGENT"⟩] }
  | RiskLevel.moderate =>
      { acc with moderate_risk := acc.moderate_risk ++ [⟨feature_name, value, p.2, "MONITOR"⟩] }
  | RiskLevel.low =>
      { acc with low_risk := acc.low_risk ++ [⟨feature_name, value, p.2, "STANDARD"⟩] }

/-- `LLMDiagnosisAnalyzer._analyze_risk_factors` (llm_diagnosis.py lines
203-245): sort importances descending (stable) and classify the first five. -/
def analyze_risk_factors (features : List (String × ℚ))
    (names : List (String × String))
    (feature_importance : List (String × ℚ)) : RiskFactors :=
  let top_importance := sortDesc feature_importance
  (top_importance.take 5).foldl (classify_risk_factor features names) ⟨[], [], []⟩

/-- `LLMDiagnosisAnalyzer._interpret_confidence` (llm_diagnosis.py lines
283-294): strictly-greater threshold chain. -/
def interpret_confidence (confidence : ℚ) : String :=
  if confidence > 9/10 then "Very High - Strong indicator"
  else if confidence > 8/10 then "High - Reliable prediction"
  else if confidence > 7/10 then "Good - Moderately reliable"
  else if confidence > 6/10 then "Moderate - Consider with other tests"
  else "Low - Additional testing recommended"

/-- `LLMDiagnosisAnalyzer._suggest_next_steps` (llm_diagnosis.py lines 296-326). -/
def suggest_next_steps (prediction : ℤ) (confidence : ℚ) : List String :=
  if prediction = 1 ∧ confidence > 8/10 then
    ["1. Schedule immediate oncology consultation",
     "2. Perform confirmatory diagnostic tests (imaging, biopsy)",
     "3. Staging studies if cancer confirmed",
     "4. Develop treatment plan with oncology team",
     "5. Consider second opinion for validation"]
  else if prediction = 1 ∧ confidence ≤ 8/10 then
    ["1. Schedule oncology consultation for further evaluation",
     "2. Additional diagnostic testing recommended",
     "3. Close monitoring with follow-up tests in 4-6 weeks",
     "4. Repeat screening after defined interval",
     "5. Lifestyle modifications to reduce risk factors"]
  else
    ["1. Continue routine surveillance",
     "2. Maintain cancer screening schedule",
     "3. Monitor for any symptoms or changes",
     "4. Annual medical check-ups",
     "5. Maintain healthy lifestyle and risk factor control"]

/-- Python `f"{q:.1f}"` on a rational: one decimal digit (the claims never
inspect formatted digits, so the rounding mode of ties is immaterial here). -/
def fmt1 (q : ℚ) : String :=
  let n : ℤ := round (q * 10)
  toString (n / 10) ++ "." ++ toString (n % 10).natAbs

/-- `LLMDiagnosisAnalyzer._generate_insights` (llm_diagnosis.py lines
131-163): the stripped multi-line template string. -/
def generate_insights (prediction : ℤ) (confidence : ℚ)
    (features : List (String × ℚ)) (names : List (String × String))
    (feature_importance : List (String × ℚ)) : String :=
  let prediction_text := if prediction = 1 then
      "Cancer Risk: HIGH - Positive prediction detected"
    else "Cancer Risk: LOW - Negative prediction"
  let confidence_text := "Model confidence: " ++ fmt1 (confidence * 100) ++ "%"
  let top_factors := (sortDesc feature_importance).take 3
  let risk_factors_text := "Primary risk factors: " ++
    String.intercalate ", " (top_factors.map (fun f => (names.lookup f.1).getD f.1))
  prediction_text ++ "\n" ++ confidence_text ++ "\n\n" ++ risk_factors_text ++
  "\n\nClinical Assessment:\nThe XGBoost model has analyzed " ++
  toString features.length ++
  " critical medical parameters to assess cancer risk.\nThe model shows " ++
  (if confidence > 8/10 then "strong" else if confidence > 6/10 then "moderate" else "weak") ++
  " confidence in this prediction.\n\nKey Findings:\n- Prediction Score: " ++
  toString prediction ++ "\n- Model Confidence: " ++ fmt1 (confidence * 100) ++
  "%\n- Analysis based on: " ++
  String.intercalate ", " ((features.take 5).map (fun k => (names.lookup k.1).getD k.1)) ++
  "... and more\n\nThis analysis should be reviewed by qualified medical professionals for clinical decision-making."

/-- The successful report dict assembled by `generate_diagnosis_report`
(llm_diagnosis.py lines 80-87). -/
structure ReportBody where
  diagnosis_summary : String
  risk_analysis : RiskFactors
  recommendations : List String
  feature_summary : List SummaryEntry
  confidence_level : String
  next_steps : List String

/-- Outcome of `generate_diagnosis_report`: either the full report dict or
the degraded error dict returned by the except-branch
(llm_diagnosis.py lines 91-96). -/
inductive ReportResult where
  | report (body : ReportBody)
  | errorReport (error : String) (message : String)

/-- The try-block of `generate_diagnosis_report` (llm_diagnosis.py lines
38-89). A features value of Python `None` is embedded as `Option.none`;
iterating it (`features.items()` inside `_build_feature_summary`) raises
AttributeError, surfaced here as `Except.error` with the Python message.
For a proper dict of floats no later stage can raise. -/
def report_body (features : Option (List (String × ℚ))) (prediction : ℤ)
    (confidence : ℚ) (feature_importance : List (String × ℚ)) :
    Except String ReportBody :=
  match features with
  | Option.none =>
      Except.error "\x27NoneType\x27 object has no attribute \x27items\x27"
  | Option.some fs =>
      Except.ok
        { diagnosis_summary :=
            generate_insights prediction confidence fs feature_names feature_importance
          risk_analysis := analyze_risk_factors fs feature_names feature_importance
          recommendations := generate_recommendations prediction confidence fs feature_names
          feature_summary := build_feature_summary fs feature_names
          confidence_level := interpret_confidence confidence
          next_steps := suggest_next_steps prediction confidence }

/-- `LLMDiagnosisAnalyzer.generate_diagnosis_report` (llm_diagnosis.py lines
21-96): the try/except wrapper around `report_body`; an exception becomes
the degraded error dict instead of propagating. -/
def generate_diagnosis_report (features : Option (List (String × ℚ)))
    (prediction : ℤ) (confidence : ℚ)
    (feature_importance : List (String × ℚ)) : ReportResult :=
  match report_body features prediction confidence feature_importance with
  | Except.ok body => ReportResult.report body
  | Except.error e => ReportResult.errorReport e "Failed to generate diagnosis report"

/-- `DataLoader.prepare_data`'s inner `_augment` (data_loader.py lines
84-89), viewed column-wise: each column `c` of the frame yields a column
`c_sq` of elementwise squares, and the squared block is concatenated after
the raw block. -/
def _augment (df : List (String × List ℚ)) : List (String × List ℚ) :=
  let squared := df.map (fun c => (c.1 ++ "_sq", c.2.map (fun v => v * v)))
  df ++ squared

/-- Row of named numeric cells, as one row of a pandas DataFrame. -/
abbrev Row := List (String × ℚ)

/-- The `model_type` field of `XGBoostModel`. -/
inductive ModelType where
  | classification
  | regression
deriving DecidableEq, Repr

/-- `XGBoostModel` (model.py lines 14-48). The wrapped booster is external
library code; its learned behavior is carried abstractly as `proba1`, the
per-row probability of class one, from which the binary classifier derives
`predict_proba` rows `[1 - p, p]` and thresholded labels. -/
structure XGBoostModel where
  model_type : ModelType
  is_trained : Bool
  proba1 : Row → ℚ

/-- `XGBoostModel.predict` (model.py lines 75-87): guard on `is_trained`,
then delegate to the booster. -/
def XGBoostModel.predict (m : XGBoostModel) (X : List Row) : Except String (List ℤ) :=
  if m.is_trained = false then
    Except.error "Model not trained yet. Call train first."
  else
    Except.ok (X.map (fun r => if m.proba1 r > 1/2 then 1 else 0))

/-- `XGBoostModel.predict_proba` (model.py lines 89-103): guard on the model
type, then on `is_trained`, then delegate to the booster. -/
def XGBoostModel.predict_proba (m : XGBoostModel) (X : List Row) :
    Except String (List (List ℚ)) :=
  if m.model_type ≠ ModelType.classification then
    Except.error "predict_proba only available for classification models"
  else if m.is_trained = false then
    Except.error "Model not trained yet. Call train first."
  else
    Except.ok (X.map (fun r => [1 - m.proba1 r, m.proba1 r]))

/-- `XGBoostModel.train` (model.py lines 50-73): fitting itself happens in
the external booster (abstracted as the resulting `fitted` function); the
wrapper records that training happened. -/
def XGBoostModel.train (m : XGBoostModel) (fitted : Row → ℚ) : XGBoostModel :=
  { m with is_trained := true, proba1 := fitted }

/-- `app.validate_prediction_data` (app.py lines 93-108). The request body
from `request.get_json()` is modelled as `Option` of a JSON object
(`None`, or a string-keyed dict): falsy data is rejected, then the
`features` value must be a list (of length exactly 10) or a dict; numeric
content and dict keys are not inspected. -/
def validate_prediction_data (data : Option (List (String × PyVal))) :
    Bool × String :=
  match data with
  | Option.none => (false, "No data provided")
  | Option.some kvs =>
    if kvs.isEmpty then (false, "No data provided")
    else
      match kvs.lookup "features" with
      | Option.none => (false, "Missing \x27features\x27 field")
      | Option.some (PyVal.list xs) =>
          if xs.length ≠ 10 then
            (false, "Expected 10 features, got " ++ toString xs.length)
          else (true, "Valid")
      | Option.some (PyVal.dict _) => (true, "Valid")
      | Option.some _ => (false, "Features must be a list or dictionary")

/-- One numeric cell extraction: pandas/xgboost raise on non-numeric cell
content, surfaced as `Except.error` (caught by the handler's except-branch). -/
def toNum : PyVal → Except String ℚ
  | PyVal.num q => Except.ok q
  | _ => Except.error "could not convert data to numeric"

/-- The served application state: the global `model` and the optional
global `data_loader` scaler of app.py (the fitted `StandardScaler.transform`
is external library code, carried abstractly as a row transformer). -/
structure AppState where
  model : Option XGBoostModel
  scaler : Option (Row → Row)

/-- Success-path tail of the `/api/predict` handler (app.py lines 173-191):
optional scaling, `model.predict`, `model.predict_proba`, then the result
dict with keys prediction, probabilities, confidence. -/
def mk_predict_result (st : AppState) (m : XGBoostModel) (X : List Row) :
    Except String PyVal := do
  let X := match st.scaler with
    | Option.some f => X.map f
    | Option.none => X
  let preds ← m.predict X
  let probas ← m.predict_proba X
  match preds, probas with
  | p :: _, pr :: _ =>
      Except.ok (PyVal.dict
        [("prediction", PyVal.num (p : ℚ)),
         ("probabilities", PyVal.dict
           [("class_0", PyVal.num (pr.getD 0 0)),
            ("class_1", PyVal.num (pr.getD 1 0))]),
         ("confidence", PyVal.num (match pr with
           | [] => 0
           | a :: rest => rest.foldl max a))])
  | _, _ => Except.error "index 0 is out of bounds"

/-- Data-preparation part of the `/api/predict` handler (app.py lines
167-180): a list becomes one row with columns `feature_i`, a dict is taken
as its own row; then `mk_predict_result`. Only reached on validated data. -/
def predict_body (st : AppState) (m : XGBoostModel)
    (data : Option (List (String × PyVal))) : Except String PyVal := do
  let kvs := data.getD []
  match kvs.lookup "features" with
  | Option.some (PyVal.list xs) => do
      let vals ← xs.mapM toNum
      let X := ((List.range xs.length).map (fun i => "feature_" ++ toString i)).zip vals
      mk_predict_result st m [X]
  | Option.some (PyVal.dict fkvs) => do
      let row ← fkvs.mapM (fun p => do
        let q ← toNum p.2
        Except.ok (p.1, q))
      mk_predict_result st m [row]
  | _ => Except.error "invalid features"

/-- The `/api/predict` handler `app.predict` (app.py lines 152-195):
model-readiness guard (500), validation (400), then the try-block whose
exceptions become a 500 error dict. Returns (HTTP status, JSON body). -/
def predict_handler (st : AppState)
    (data : Option (List (String × PyVal))) : Nat × PyVal :=
  match st.model with
  | Option.none => (500, PyVal.dict [("error", PyVal.str "Model not ready")])
  | Option.some m =>
    if m.is_trained = false then
      (500, PyVal.dict [("error", PyVal.str "Model not ready")])
    else
      let v := validate_prediction_data data
      if v.1 = false then (400, PyVal.dict [("error", PyVal.str v.2)])
      else
        match predict_body st m data with
        | Except.ok res => (200, res)
        | Except.error e => (500, PyVal.dict [("error", PyVal.str e)])

/-- Top-level keys of a JSON object value. -/
def objKeys : PyVal → List String
  | PyVal.dict kvs => kvs.map Prod.fst
  | _ => []

/-- Field access in a JSON object value. -/
def objField (v : PyVal) (k : String) : Option PyVal :=
  match v with
  | PyVal.dict kvs => kvs.lookup k
  | _ => Option.none

/-- Numeric field access in a JSON object value. -/
def numField (v : PyVal) (k : String) : Option ℚ :=
  match objField v k with
  | Option.some (PyVal.num q) => Option.some q
  | _ => Option.none

/-- Numeric rank of a risk tier (higher rank, higher risk), used to state
in which direction a threshold comparison runs. -/
def riskRank : RiskLevel → ℕ
  | RiskLevel.high => 2
  | RiskLevel.moderate => 1
  | RiskLevel.low => 0

/-- The bucket entry that `classify_risk_factor` builds for an importance
pair, given the urgency tag of its tier. -/
def riskEntryOf (features : List (String × ℚ)) (names : List (String × String))
    (urg : String) (p : String × ℚ) : RiskEntry :=
  ⟨(names.lookup p.1).getD p.1, dictGet features p.1 0, p.2, urg⟩

/-- Concrete ten-column single-row frame used to instantiate the
augmentation theorem. -/
def dfW : List (String × List ℚ) :=
  (List.range 10).map (fun i => ("feature_" ++ toString i, [(i : ℚ) + 2]))

/-- Concrete trained classification model whose booster always reports
probability 7/10 for class one. -/
def mW : XGBoostModel :=
  { model_type := ModelType.classification, is_trained := true, proba1 := fun _ => 7/10 }

/-- Concrete untrained classification model. -/
def mUntrained : XGBoostModel :=
  { model_type := ModelType.classification, is_trained := false, proba1 := fun _ => 0 }

/-- A single-prediction request whose features field is the given numeric
list. -/
def single_request (qs : List ℚ) : Option (List (String × PyVal)) :=
  Option.some [("features", PyVal.list (qs.map PyVal.num))]

/-- The handler response for a valid all-zero single-prediction request
against `mW` with no scaler present. -/
def respW : Nat × PyVal :=
  predict_handler ⟨Option.some mW, Option.none⟩ (single_request (List.replicate 10 0))

/-- Association-list lookup misses every key absent from the key column. -/
lemma lookup_eq_none_of_not_mem {β : Type} (kvs : List (String × β)) (k : String)
    (h : k ∉ kvs.map Prod.fst) : kvs.lookup k = Option.none := by
  induction kvs with
  | nil => rfl
  | cons a t ih =>
    simp only [List.map_cons, List.mem_cons] at h
    push_neg at h
    have hk : (k == a.1) = false := beq_false_of_ne h.1
    simp [List.lookup, hk, ih h.2]

/-- Claim C3: on a ten-column frame the augmentation keeps the ten raw
columns first in their original order and appends the ten squared columns,
named with the `_sq` suffix, in the same order, for twenty columns total. -/
theorem claim_C3 (df : List (String × List ℚ)) (h : df.length = 10) :
    (_augment df).length = 20 ∧
    (_augment df).take 10 = df ∧
    (_augment df).drop 10 =
      df.map (fun c => (c.1 ++ "_sq", c.2.map (fun v => v * v))) := by
  refine ⟨?_, ?_, ?_⟩
  · simp [_augment, h]
  · calc (_augment df).take 10 = (df ++ _).take df.length := by rw [_augment, h]
    _ = df := List.take_left df _
  · calc (_augment df).drop 10 = (df ++ df.map _).drop df.length := by rw [_augment, h]
    _ = df.map _ := List.drop_left df _

/-- Witness for claim C3 at a concrete ten-column frame. -/
theorem claim_C3_witness :
    dfW.length = 10 ∧
    ((_augment dfW).length = 20 ∧
     (_augment dfW).take 10 = dfW ∧
     (_augment dfW).drop 10 =
       dfW.map (fun c => (c.1 ++ "_sq", c.2.map (fun v => v * v)))) :=
  ⟨by decide, claim_C3 dfW (by decide)⟩

/-- Claim C6: `generate_diagnosis_report` is a total function of its inputs
(the embedding returns a `ReportResult` on every input, so no exception
propagates); a malformed `None` features value yields the degraded error
dict with the Python error string and the fixed failure message, and every
proper features mapping yields a full report. -/
theorem claim_C6 :
    (∀ (prediction : ℤ) (confidence : ℚ) (imp : List (String × ℚ)),
      generate_diagnosis_report Option.none prediction confidence imp =
        ReportResult.errorReport
          "\x27NoneType\x27 object has no attribute \x27items\x27"
          "Failed to generate diagnosis report") ∧
    (∀ (fs : List (String × ℚ)) (prediction : ℤ) (confidence : ℚ)
       (imp : List (String × ℚ)),
      ∃ body, generate_diagnosis_report (Option.some fs) prediction confidence imp =
        ReportResult.report body) :=
  ⟨fun _ _ _ => rfl, fun _ _ _ _ => ⟨_, rfl⟩⟩

/-- Claim C7: `interpret_confidence` picks its label by exclusive lower
bounds with strict comparison, so each label holds exactly on a half-open
interval, the boundary points 0.9, 0.8, 0.7, 0.6 fall to the next-lower
label, 0.95 gets the label starting with "Very High", and 0.55 gets the
label containing "Low". -/
theorem claim_C7 :
    (∀ c : ℚ,
      (9/10 < c → interpret_confidence c = "Very High - Strong indicator") ∧
      (8/10 < c → c ≤ 9/10 → interpret_confidence c = "High - Reliable prediction") ∧
      (7/10 < c → c ≤ 8/10 → interpret_confidence c = "Good - Moderately reliable") ∧
      (6/10 < c → c ≤ 7/10 → interpret_confidence c = "Moderate - Consider with other tests") ∧
      (c ≤ 6/10 → interpret_confidence c = "Low - Additional testing recommended")) ∧
    interpret_confidence (9/10) = "High - Reliable prediction" ∧
    interpret_confidence (8/10) = "Good - Moderately reliable" ∧
    interpret_confidence (7/10) = "Moderate - Consider with other tests" ∧
    interpret_confidence (6/10) = "Low - Additional testing recommended" ∧
    interpret_confidence (95/100) = "Very High" ++ " - Strong indicator" ∧
    interpret_confidence (55/100) = "Low" ++ " - Additional testing recommended" := by
  refine ⟨fun c => ⟨?_, ?_, ?_, ?_, ?_⟩, ?_, ?_, ?_, ?_, ?_, ?_⟩ <;>
    intros <;> simp only [interpret_confidence] <;>
    split_ifs <;> first | rfl | linarith

/-- Witness for claim C7: the bucket characterization applied at concrete
confidences inside each band. -/
theorem claim_C7_witness :
    (9/10 < (95/100 : ℚ) ∧ interpret_confidence (95/100) = "Very High - Strong indicator") ∧
    (8/10 < (85/100 : ℚ) ∧ (85/100 : ℚ) ≤ 9/10 ∧
      interpret_confidence (85/100) = "High - Reliable prediction") ∧
    ((55/100 : ℚ) ≤ 6/10 ∧ interpret_confidence (55/100) = "Low - Additional testing recommended") :=
  ⟨⟨by norm_num, (claim_C7.1 (95/100)).1 (by norm_num)⟩,
   ⟨by norm_num, by norm_num, (claim_C7.1 (85/100)).2.1 (by norm_num) (by norm_num)⟩,
   ⟨by norm_num, (claim_C7.1 (55/100)).2.2.2.2 (by norm_num)⟩⟩

/-- Claim C9: `predict` invoked on an untrained model fails with the
model-not-trained error, so does `predict_proba` on an untrained
classification model, and on a trained classification model every row that
`predict_proba` returns is a pair summing to one (exactly, in the rational
embedding). -/
theorem claim_C9 :
    (∀ (m : XGBoostModel) (X : List Row), m.is_trained = false →
      m.predict X = Except.error "Model not trained yet. Call train first.") ∧
    (∀ (m : XGBoostModel) (X : List Row), m.is_trained = false →
      m.model_type = ModelType.classification →
      m.predict_proba X = Except.error "Model not trained yet. Call train first.") ∧
    (∀ (m : XGBoostModel) (fitted : Row → ℚ) (X : List Row) (ps : List (List ℚ)),
      (m.train fitted).model_type = ModelType.classification →
      (m.train fitted).predict_proba X = Except.ok ps →
      ∀ pr ∈ ps, ∃ p0 p1, pr = [p0, p1] ∧ p0 + p1 = 1) := by
  refine ⟨fun m X h => ?_, fun m X h hc => ?_, fun m fitted X ps hc hok pr hpr => ?_⟩
  · simp [XGBoostModel.predict, h]
  · simp [XGBoostModel.predict_proba, h, hc]
  · simp only [XGBoostModel.train] at hc
    simp only [XGBoostModel.predict_proba, XGBoostModel.train, hc] at hok
    simp only [ne_eq, not_true_eq_false, if_false, Bool.true_eq_false,
      reduceIte, Except.ok.injEq] at hok
    rcases hok with rfl
    simp only [List.mem_map] at hpr
    obtain ⟨r, _, rfl⟩ := hpr
    exact ⟨_, _, rfl, by ring⟩

/-- Witness for claim C9 at concrete models and inputs. -/
theorem claim_C9_witness :
    mUntrained.predict [] = Except.error "Model not trained yet. Call train first." ∧
    mUntrained.predict_proba [] = Except.error "Model not trained yet. Call train first." ∧
    (∃ p0 p1, ([3/10, 7/10] : List ℚ) = [p0, p1] ∧ p0 + p1 = 1) :=
  ⟨claim_C9.1 mUntrained [] rfl,
   claim_C9.2.1 mUntrained [] rfl rfl,
   claim_C9.2.2 mUntrained (fun _ => 7/10) [[]] [[3/10, 7/10]] rfl
     (by norm_num [XGBoostModel.predict_proba, XGBoostModel.train, mUntrained])
     [3/10, 7/10] (by simp)⟩

/-- A regular (non-inverted) threshold pair classifies monotonically: a
larger value never gets a lower risk rank. -/
lemma regular_rank_mono (hi mo v w : ℚ) (hvw : v ≤ w) :
    riskRank (if v > hi then RiskLevel.high
              else if v > mo then RiskLevel.moderate else RiskLevel.low) ≤
    riskRank (if w > hi then RiskLevel.high
              else if w > mo then RiskLevel.moderate else RiskLevel.low) := by
  split_ifs <;> simp [riskRank] <;> linarith

/-- An inverted threshold pair classifies antitonically: a larger value
never gets a higher risk rank. -/
lemma inverted_rank_anti (hi mo v w : ℚ) (hvw : v ≤ w) :
    riskRank (if w < hi then RiskLevel.high
              else if w < mo then RiskLevel.moderate else RiskLevel.low) ≤
    riskRank (if v < hi then RiskLevel.high
              else if v < mo then RiskLevel.moderate else RiskLevel.low) := by
  split_ifs <;> simp [riskRank] <;> linarith

/-- `assess_risk_level` at a regular code with a known threshold row
reduces to the regular comparison chain. -/
lemma assess_regular_eq (code : String) (hi mo : ℚ)
    (hlk : risk_thresholds.lookup code = Option.some (hi, mo))
    (hne : ¬(code = "feature_5" ∨ code = "feature_6")) (v : ℚ) :
    assess_risk_level code v =
      (if v > hi then RiskLevel.high
       else if v > mo then RiskLevel.moderate else RiskLevel.low) := by
  simp [assess_risk_level, hlk, hne]

/-- `assess_risk_level` at an inverted code with a known threshold row
reduces to the inverted comparison chain. -/
lemma assess_inverted_eq (code : String) (hi mo : ℚ)
    (hlk : risk_thresholds.lookup code = Option.some (hi, mo))
    (heq : code = "feature_5" ∨ code = "feature_6") (v : ℚ) :
    assess_risk_level code v =
      (if v < hi then RiskLevel.high
       else if v < mo then RiskLevel.moderate else RiskLevel.low) := by
  simp [assess_risk_level, hlk, heq]

/-- Claim C4: `assess_risk_level` always lands in {high, moderate, low};
at hemoglobin it maps 8.0 to high and 13.0 to low; every code outside the
ten canonical ones yields moderate; on hemoglobin and platelets the rank is
antitone in the value (lower value, higher risk), and on every other
canonical code the rank is monotone in the value. -/
theorem claim_C4 :
    (∀ (code : String) (v : ℚ),
      assess_risk_level code v = RiskLevel.high ∨
      assess_risk_level code v = RiskLevel.moderate ∨
      assess_risk_level code v = RiskLevel.low) ∧
    assess_risk_level "feature_5" 8 = RiskLevel.high ∧
    assess_risk_level "feature_5" 13 = RiskLevel.low ∧
    (∀ code : String, code ∉ canonical_feature_codes →
      ∀ v : ℚ, assess_risk_level code v = RiskLevel.moderate) ∧
    (∀ code : String, code = "feature_5" ∨ code = "feature_6" →
      ∀ v w : ℚ, v ≤ w →
        riskRank (assess_risk_level code w) ≤ riskRank (assess_risk_level code v)) ∧
    (∀ code : String,
      code ∈ ["feature_0", "feature_1", "feature_2", "feature_3",
              "feature_4", "feature_7", "feature_8", "feature_9"] →
      ∀ v w : ℚ, v ≤ w →
        riskRank (assess_risk_level code v) ≤ riskRank (assess_risk_level code w)) := by
  refine ⟨?_, by decide, by decide, ?_, ?_, ?_⟩
  · intro code v
    rcases assess_risk_level code v <;> simp
  · intro code hcode v
    have hmap : risk_thresholds.map Prod.fst = canonical_feature_codes := by decide
    have hlk : risk_thresholds.lookup code = Option.none :=
      lookup_eq_none_of_not_mem _ _ (by rw [hmap]; exact hcode)
    simp [assess_risk_level, hlk]
  · intro code hcode v w hvw
    rcases hcode with rfl | rfl
    · rw [assess_inverted_eq "feature_5" 10 12 (by decide) (Or.inl rfl) v,
         assess_inverted_eq "feature_5" 10 12 (by decide) (Or.inl rfl) w]
      exact inverted_rank_anti 10 12 v w hvw
    · rw [assess_inverted_eq "feature_6" 100 150 (by decide) (Or.inr rfl) v,
         assess_inverted_eq "feature_6" 100 150 (by decide) (Or.inr rfl) w]
      exact inverted_rank_anti 100 150 v w hvw
  · intro code hcode v w hvw
    fin_cases hcode
    · rw [assess_regular_eq "feature_0" 70 50 (by decide) (by decide) v,
         assess_regular_eq "feature_0" 70 50 (by decide) (by decide) w]
      exact regular_rank_mono 70 50 v w hvw
    · rw [assess_regular_eq "feature_1" 30 20 (by decide) (by decide) v,
         assess_regular_eq "feature_1" 30 20 (by decide) (by decide) w]
      exact regular_rank_mono 30 20 v w hvw
    · rw [assess_regular_eq "feature_2" 3 2 (by decide) (by decide) v,
         assess_regular_eq "feature_2" 3 2 (by decide) (by decide) w]
      exact regular_rank_mono 3 2 v w hvw
    · rw [assess_regular_eq "feature_3" (8/10) (5/10) rfl (by decide) v,
         assess_regular_eq "feature_3" (8/10) (5/10) rfl (by decide) w]
      exact regular_rank_mono (8/10) (5/10) v w hvw
    · rw [assess_regular_eq "feature_4" 15 11 (by decide) (by decide) v,
         assess_regular_eq "feature_4" 15 11 (by decide) (by decide) w]
      exact regular_rank_mono 15 11 v w hvw
    · rw [assess_regular_eq "feature_7" 10 4 (by decide) (by decide) v,
         assess_regular_eq "feature_7" 10 4 (by decide) (by decide) w]
      exact regular_rank_mono 10 4 v w hvw
    · rw [assess_regular_eq "feature_8" 200 126 (by decide) (by decide) v,
         assess_regular_eq "feature_8" 200 126 (by decide) (by decide) w]
      exact regular_rank_mono 200 126 v w hvw
    · rw [assess_regular_eq "feature_9" 35 30 (by decide) (by decide) v,
         assess_regular_eq "feature_9" 35 30 (by decide) (by decide) w]
      exact regular_rank_mono 35 30 v w hvw

/-- Witness for claim C4 at concrete codes and values: an unknown code
defaults to moderate, hemoglobin ranks antitonically between 8 and 13, and
age ranks monotonically between 40 and 75. -/
theorem claim_C4_witness :
    assess_risk_level "feature_42" 5 = RiskLevel.moderate ∧
    riskRank (assess_risk_level "feature_5" 13) ≤ riskRank (assess_risk_level "feature_5" 8) ∧
    riskRank (assess_risk_level "feature_0" 40) ≤ riskRank (assess_risk_level "feature_0" 75) :=
  ⟨claim_C4.2.2.2.1 "feature_42" (by decide) 5,
   claim_C4.2.2.2.2.1 "feature_5" (Or.inl rfl) 8 13 (by norm_num),
   claim_C4.2.2.2.2.2 "feature_0" (by decide) 40 75 (by norm_num)⟩

/-- Claim C5: the recommendation list is always the fixed base block chosen
by the prediction (five strings for prediction one, four for prediction
zero) followed by the four conditional strings, each present exactly when
its condition holds, in the fixed check order age, genetic risk, WBC,
confidence; in the concrete scenario age 65, genetic risk 0.8,
prediction 1, confidence 0.85 the result is the five base strings plus the
age-monitoring and genetic-risk strings. -/
theorem claim_C5 :
    (∀ (prediction : ℤ) (confidence : ℚ) (features : List (String × ℚ))
       (fn : List (String × String)),
      generate_recommendations prediction confidence features fn =
        (if prediction = 1 then
          ["游댮 HIGH PRIORITY: Schedule urgent consultation with oncologist",
           "游댮 Recommend comprehensive cancer screening tests",
           "游댮 Consider advanced imaging (CT/MRI) based on tumor type",
           "游댮 Discuss treatment options with medical team",
           "游댮 Genetic counseling if genetic risk factors present"]
        else
          ["游릭 Continue routine cancer screening schedule",
           "游릭 Maintain healthy lifestyle and risk factor management",
           "游릭 Annual check-ups recommended",
           "游릭 Monitor any changes in health status"]) ++
        (if dictGet features "feature_0" 0 > 60 then
          ["丘멆잺 Age-related monitoring: Increase screening frequency"] else []) ++
        (if dictGet features "feature_3" 0 > 7/10 then
          ["丘멆잺 Genetic risk: Consider genetic testing and family counseling"] else []) ++
        (if dictGet features "feature_4" 0 > 11 then
          ["丘멆잺 Elevated WBC: Investigate for infection or other conditions"] else []) ++
        (if confidence < 6/10 then
          ["丘멆잺 LOW CONFIDENCE: Additional testing recommended for confirmation"] else [])) ∧
    generate_recommendations 1 (85/100)
        [("feature_0", 65), ("feature_3", 8/10)] feature_names =
      ["游댮 HIGH PRIORITY: Schedule urgent consultation with oncologist",
       "游댮 Recommend comprehensive cancer screening tests",
       "游댮 Consider advanced imaging (CT/MRI) based on tumor type",
       "游댮 Discuss treatment options with medical team",
       "游댮 Genetic counseling if genetic risk factors present",
       "丘멆잺 Age-related monitoring: Increase screening frequency",
       "丘멆잺 Genetic risk: Consider genetic testing and family counseling"] := by
  constructor
  · intro prediction confidence features fn
    simp only [generate_recommendations]
    split_ifs <;> simp
  · have b2 : ("feature_3" == "feature_0") = false := by decide
    have b3 : ("feature_4" == "feature_0") = false := by decide
    have b4 : ("feature_4" == "feature_3") = false := by decide
    norm_num [generate_recommendations, dictGet, List.lookup, b2, b3, b4]

/-- Inserting an element into a list moves it past exactly the
strictly-larger scores, so the sublist of any fixed score gains the new
element at the front when it has that score and is untouched otherwise. -/
lemma filter_score_orderedInsert (s : ℚ) (x : String × ℚ) (l : List (String × ℚ)) :
    (l.orderedInsert ge2 x).filter (fun p => decide (p.2 = s)) =
      (if x.2 = s then [x] else []) ++ l.filter (fun p => decide (p.2 = s)) := by
  induction l with
  | nil =>
    simp only [List.orderedInsert, List.append_nil]
    split_ifs with h <;> simp [List.filter, h]
  | cons y ys ih =>
    simp only [List.orderedInsert]
    by_cases hxy : ge2 x y
    · rw [if_pos hxy, List.filter_cons, List.filter_cons]
      split_ifs <;> simp_all
    · rw [if_neg hxy, List.filter_cons, ih, List.filter_cons]
      have hlt : x.2 < y.2 := not_le.mp hxy
      by_cases hys : y.2 = s
      · have hxs : ¬x.2 = s := by
          intro h
          rw [h, ← hys] at hlt
          exact lt_irrefl _ hlt
        simp [hys, hxs]
      · simp [hys]

/-- Stability of the descending sort: for every score, the sublist of
entries carrying exactly that score is preserved in its original order, so
ties are broken by original key order. -/
lemma filter_score_sortDesc (s : ℚ) (l : List (String × ℚ)) :
    (sortDesc l).filter (fun p => decide (p.2 = s)) =
      l.filter (fun p => decide (p.2 = s)) := by
  induction l with
  | nil => rfl
  | cons x xs ih =>
    simp only [sortDesc, List.insertionSort] at *
    rw [filter_score_orderedInsert, ih, List.filter_cons]
    split_ifs <;> simp_all

/-- The classification loop of `_analyze_risk_factors` distributes the
processed pairs over the three buckets: each bucket collects, in order, the
pairs whose assessed tier matches, tagged with the tier's urgency. -/
lemma foldl_classify_eq (features : List (String × ℚ))
    (names : List (String × String)) (l : List (String × ℚ)) (acc : RiskFactors) :
    l.foldl (classify_risk_factor features names) acc =
      ⟨acc.high_risk ++ (l.filter (fun p =>
          decide (assess_risk_level p.1 (dictGet features p.1 0) = RiskLevel.high))).map
          (riskEntryOf features names "URGENT"),
       acc.moderate_risk ++ (l.filter (fun p =>
          decide (assess_risk_level p.1 (dictGet features p.1 0) = RiskLevel.moderate))).map
          (riskEntryOf features names "MONITOR"),
       acc.low_risk ++ (l.filter (fun p =>
          decide (assess_risk_level p.1 (dictGet features p.1 0) = RiskLevel.low))).map
          (riskEntryOf features names "STANDARD")⟩ := by
  induction l generalizing acc with
  | nil => simp
  | cons x xs ih =>
    rw [List.foldl_cons, ih]
    rcases hx : assess_risk_level x.1 (dictGet features x.1 0) with _ | _ | _ <;>
      simp [classify_risk_factor, riskEntryOf, hx, List.filter_cons]

/-- Claim C8: `_analyze_risk_factors` classifies exactly the top-5
importance pairs after a descending stable sort; each bucket is the ordered
selection of those pairs whose `assess_risk_level` tier matches, tagged
with the tier's urgency (URGENT, MONITOR, STANDARD); at most five pairs are
considered; the sort is a permutation of the importances, is descending in
score, and preserves the original relative order of any fixed score. -/
theorem claim_C8 (features : List (String × ℚ)) (names : List (String × String))
    (imp : List (String × ℚ)) :
    ((analyze_risk_factors features names imp).high_risk =
      (((sortDesc imp).take 5).filter (fun p =>
        decide (assess_risk_level p.1 (dictGet features p.1 0) = RiskLevel.high))).map
        (riskEntryOf features names "URGENT") ∧
     (analyze_risk_factors features names imp).moderate_risk =
      (((sortDesc imp).take 5).filter (fun p =>
        decide (assess_risk_level p.1 (dictGet features p.1 0) = RiskLevel.moderate))).map
        (riskEntryOf features names "MONITOR") ∧
     (analyze_risk_factors features names imp).low_risk =
      (((sortDesc imp).take 5).filter (fun p =>
        decide (assess_risk_level p.1 (dictGet features p.1 0) = RiskLevel.low))).map
        (riskEntryOf features names "STANDARD")) ∧
    ((∀ e ∈ (analyze_risk_factors features names imp).high_risk, e.urgency = "URGENT") ∧
     (∀ e ∈ (analyze_risk_factors features names imp).moderate_risk, e.urgency = "MONITOR") ∧
     (∀ e ∈ (analyze_risk_factors features names imp).low_risk, e.urgency = "STANDARD")) ∧
    ((sortDesc imp).take 5).length ≤ 5 ∧
    (sortDesc imp).Perm imp ∧
    (sortDesc imp).Sorted ge2 ∧
    (∀ s : ℚ, (sortDesc imp).filter (fun p => decide (p.2 = s)) =
      imp.filter (fun p => decide (p.2 = s))) := by
  have hbuckets := foldl_classify_eq features names ((sortDesc imp).take 5) ⟨[], [], []⟩
  refine ⟨?_, ?_, List.length_take_le 5 _, List.perm_insertionSort ge2 imp,
    List.sorted_insertionSort ge2 imp, fun s => filter_score_sortDesc s imp⟩
  · rw [analyze_risk_factors, hbuckets]
    exact ⟨by simp, by simp, by simp⟩
  · rw [analyze_risk_factors, hbuckets]
    refine ⟨fun e he => ?_, fun e he => ?_, fun e he => ?_⟩ <;>
      simp only [List.nil_append, List.mem_map] at he <;>
      obtain ⟨p, _, rfl⟩ := he <;> rfl

/-- Witness for claim C8: with one importance entry for patient age 75 the
single considered pair lands in the high bucket tagged URGENT. -/
theorem claim_C8_witness :
    ((⟨"Patient Age", 75, 1, "URGENT"⟩ : RiskEntry) ∈
      (analyze_risk_factors [("feature_0", 75)] feature_names [("feature_0", 1)]).high_risk) ∧
    (⟨"Patient Age", 75, 1, "URGENT"⟩ : RiskEntry).urgency = "URGENT" :=
  ⟨by decide,
   (claim_C8 [("feature_0", 75)] feature_names [("feature_0", 1)]).2.1.1
     ⟨"Patient Age", 75, 1, "URGENT"⟩ (by decide)⟩

/-- Claim C10: a code among the sorted top-5 importances but absent from
the features mapping is assessed with the default value 0, and when it is
one of the inverted metrics (hemoglobin or platelets) the default lies
below the inverted high threshold, so it is placed in the high-risk bucket
with urgency URGENT and recorded value 0. -/
theorem claim_C10 (features : List (String × ℚ)) (names : List (String × String))
    (imp : List (String × ℚ)) (code : String) (score : ℚ)
    (htop : (code, score) ∈ (sortDesc imp).take 5)
    (habs : features.lookup code = Option.none)
    (hinv : code = "feature_5" ∨ code = "feature_6") :
    (⟨(names.lookup code).getD code, 0, score, "URGENT"⟩ : RiskEntry) ∈
      (analyze_risk_factors features names imp).high_risk := by
  have hget : dictGet features code 0 = 0 := by simp [dictGet, habs]
  have hassess : assess_risk_level code 0 = RiskLevel.high := by
    rcases hinv with rfl | rfl <;> decide
  rw [analyze_risk_factors, foldl_classify_eq]
  simp only [List.nil_append, List.mem_map]
  refine ⟨(code, score), List.mem_filter.mpr ⟨htop, ?_⟩, ?_⟩
  · simp [hget, hassess]
  · simp [riskEntryOf, hget]

/-- Witness for claim C10: hemoglobin carries the only importance entry and
is absent from an empty features mapping; it lands in the high-risk bucket
with value 0 and urgency URGENT. -/
theorem claim_C10_witness :
    (⟨"Hemoglobin Level", 0, 1, "URGENT"⟩ : RiskEntry) ∈
      (analyze_risk_factors [] feature_names [("feature_5", 1)]).high_risk :=
  claim_C10 [] feature_names [("feature_5", 1)] "feature_5" 1
    (by decide) rfl (Or.inl rfl)

/-- Extracting the numeric cells of a numeric JSON list always succeeds. -/
lemma mapM_toNum (qs : List ℚ) : (qs.map PyVal.num).mapM toNum = Except.ok qs := by
  induction qs with
  | nil => rfl
  | cons q t ih =>
    rw [List.map_cons, List.mapM_cons, ih]
    rfl

/-- Claim C1: for every trained classification model and valid ten-number
feature list, the handler answers 200 with a payload holding exactly the
keys prediction, probabilities, confidence — the prediction thresholded
from the class-one probability, the two class probabilities summing to one,
and the confidence equal to their maximum — and no diagnosis field of any
kind is attached (`tests/test_api_predict.py` expects `diagnosis_insights`). -/
theorem claim_C1 (m : XGBoostModel) (sc : Option (Row → Row)) (qs : List ℚ)
    (ht : m.is_trained = true) (hm : m.model_type = ModelType.classification)
    (hlen : qs.length = 10) :
    ∃ p1 : ℚ,
      predict_handler ⟨Option.some m, sc⟩ (single_request qs) =
        (200, PyVal.dict
          [("prediction", PyVal.num (((if 1/2 < p1 then (1 : ℤ) else 0) : ℤ) : ℚ)),
           ("probabilities", PyVal.dict
             [("class_0", PyVal.num (1 - p1)), ("class_1", PyVal.num p1)]),
           ("confidence", PyVal.num (max (1 - p1) p1))]) ∧
      objKeys (predict_handler ⟨Option.some m, sc⟩ (single_request qs)).2 =
        ["prediction", "probabilities", "confidence"] ∧
      "diagnosis" ∉ objKeys (predict_handler ⟨Option.some m, sc⟩ (single_request qs)).2 ∧
      "diagnosis_insights" ∉
        objKeys (predict_handler ⟨Option.some m, sc⟩ (single_request qs)).2 := by
  have hresp : ∃ p1 : ℚ,
      predict_handler ⟨Option.some m, sc⟩ (single_request qs) =
        (200, PyVal.dict
          [("prediction", PyVal.num (((if 1/2 < p1 then (1 : ℤ) else 0) : ℤ) : ℚ)),
           ("probabilities", PyVal.dict
             [("class_0", PyVal.num (1 - p1)), ("class_1", PyVal.num p1)]),
           ("confidence", PyVal.num (max (1 - p1) p1))]) := by
    simp only [single_request, predict_handler, ht, Bool.true_eq_false, if_neg,
      validate_prediction_data, List.isEmpty_cons, List.lookup, beq_self_eq_true,
      List.length_map, hlen, predict_body, Option.getD_some, mapM_toNum,
      mk_predict_result, XGBoostModel.predict, XGBoostModel.predict_proba, hm]
    rcases sc with _ | f <;>
      simp only [List.map_cons, List.map_nil] <;>
      exact ⟨_, rfl⟩
  obtain ⟨p1, hp⟩ := hresp
  refine ⟨p1, hp, ?_, ?_, ?_⟩ <;> rw [hp] <;> simp [objKeys]

/-- Witness for claim C1 at the concrete model `mW` and the all-zero
request: the theorem applied with all hypotheses discharged. -/
theorem claim_C1_witness :
    mW.is_trained = true ∧ mW.model_type = ModelType.classification ∧
    (List.replicate 10 (0 : ℚ)).length = 10 ∧
    ∃ p1 : ℚ,
      predict_handler ⟨Option.some mW, Option.none⟩ (single_request (List.replicate 10 0)) =
        (200, PyVal.dict
          [("prediction", PyVal.num (((if 1/2 < p1 then (1 : ℤ) else 0) : ℤ) : ℚ)),
           ("probabilities", PyVal.dict
             [("class_0", PyVal.num (1 - p1)), ("class_1", PyVal.num p1)]),
           ("confidence", PyVal.num (max (1 - p1) p1))]) ∧
      objKeys (predict_handler ⟨Option.some mW, Option.none⟩
        (single_request (List.replicate 10 0))).2 =
        ["prediction", "probabilities", "confidence"] ∧
      "diagnosis" ∉ objKeys (predict_handler ⟨Option.some mW, Option.none⟩
        (single_request (List.replicate 10 0))).2 ∧
      "diagnosis_insights" ∉ objKeys (predict_handler ⟨Option.some mW, Option.none⟩
        (single_request (List.replicate 10 0))).2 :=
  ⟨rfl, rfl, by decide,
   claim_C1 mW Option.none (List.replicate 10 0) rfl rfl (by decide)⟩

/-- Counterexample to claim C2 as stated: a features mapping containing
none of the ten canonical keys (the empty mapping) passes validation as
Valid instead of failing with the feature-shape error. -/
theorem claim_C2_counterexample :
    validate_prediction_data (Option.some [("features", PyVal.dict [])]) =
      (true, "Valid") := rfl

/-- Claim C2 (amended): a request's features value passes validation
exactly when it is a list of exactly 10 values or any mapping — numeric
content and mapping keys are not checked; a list of any other length fails
with the message carrying the expected count 10 and the actual count, and
on a 9-element list the handler answers 400 with that message for every
trained model and scaler, so inference is never attempted on it. -/
theorem claim_C2 :
    (∀ (kvs : List (String × PyVal)) (f : PyVal),
      kvs.lookup "features" = Option.some f →
      ((validate_prediction_data (Option.some kvs)).1 = true ↔
        (∃ xs, f = PyVal.list xs ∧ xs.length = 10) ∨ (∃ m, f = PyVal.dict m))) ∧
    (∀ (kvs : List (String × PyVal)) (xs : List PyVal),
      kvs.lookup "features" = Option.some (PyVal.list xs) → xs.length ≠ 10 →
      validate_prediction_data (Option.some kvs) =
        (false, "Expected 10 features, got " ++ toString xs.length)) ∧
    (∀ (m : XGBoostModel) (sc : Option (Row → Row)) (xs : List PyVal),
      m.is_trained = true → xs.length = 9 →
      predict_handler ⟨Option.some m, sc⟩ (Option.some [("features", PyVal.list xs)]) =
        (400, PyVal.dict [("error", PyVal.str "Expected 10 features, got 9")])) := by
  have hval : ∀ (kvs : List (String × PyVal)) (f : PyVal),
      kvs.lookup "features" = Option.some f →
      validate_prediction_data (Option.some kvs) =
        (match f with
         | PyVal.list xs =>
            if xs.length ≠ 10 then
              (false, "Expected 10 features, got " ++ toString xs.length)
            else (true, "Valid")
         | PyVal.dict _ => (true, "Valid")
         | _ => (false, "Features must be a list or dictionary")) := by
    intro kvs f hf
    cases kvs with
    | nil => simp [List.lookup] at hf
    | cons a t =>
      simp only [validate_prediction_data, List.isEmpty_cons, Bool.false_eq_true,
        if_neg, hf]
      cases f <;> rfl
  refine ⟨fun kvs f hf => ?_, fun kvs xs hf hne => ?_, fun m sc xs ht h9 => ?_⟩
  · rw [hval kvs f hf]
    cases f <;> simp only [] <;> try simp
    rename_i xs
    split_ifs with h <;> simp_all
  · rw [hval kvs (PyVal.list xs) hf]
    simp [hne]
  · have h10 : xs.length ≠ 10 := by omega
    have hv := hval [("features", PyVal.list xs)] (PyVal.list xs) rfl
    simp only [h10, if_true, reduceIte] at hv
    simp only [predict_handler, ht, Bool.true_eq_false, if_neg, hv, h9]
    rfl

/-- Witness for claim C2 at concrete requests: a 9-element list is
rejected by validation with the count message, and the handler turns it
into a 400 error without consulting the model. -/
theorem claim_C2_witness :
    validate_prediction_data
        (Option.some [("features", PyVal.list (List.replicate 9 (PyVal.num 0)))]) =
      (false, "Expected 10 features, got " ++
        toString (List.replicate 9 (PyVal.num 0)).length) ∧
    predict_handler ⟨Option.some mW, Option.none⟩
        (Option.some [("features", PyVal.list (List.replicate 9 (PyVal.num 0)))]) =
      (400, PyVal.dict [("error", PyVal.str "Expected 10 features, got 9")]) :=
  ⟨claim_C2.2.1 [("features", PyVal.list (List.replicate 9 (PyVal.num 0)))]
      (List.replicate 9 (PyVal.num 0)) rfl (by decide),
   claim_C2.2.2 mW Option.none (List.replicate 9 (PyVal.num 0)) rfl (by decide)⟩

end CancerDemo
